import Mathlib

/-!
Verification development for the ZCI (Zeta Carbon Intelligence) carbon
calculator.  The repository contains two implementations of the pipeline:
`app.py` (the Streamlit production app) and `zci_calculator.py` (the
`ZCICalculator` class), plus the shared factor tables in `constants.py`.
Both variants are embedded here over exact rational arithmetic (`ℚ` stands
in for Python floats; all constants in the source are exact decimals, and
every concrete evaluation below is far from any rounding boundary).
Python dicts are embedded as association lists in source order; dict
lookup is first-match lookup, which agrees with Python semantics because
the only duplicated keys in the source carry equal values.
-/

/-! ## String helpers (Python `in`, `lower`, `upper`, `strip`) -/

/-- `listLeads n h` is true when list `n` is a prefix of list `h`
(helper for Python's substring test `n in h`). -/
def listLeads : List Char → List Char → Bool
  | [], _ => true
  | _ :: _, [] => false
  | a :: as, b :: bs => a == b && listLeads as bs

/-- `listHasSeg n h` is true when `n` occurs contiguously inside `h`. -/
def listHasSeg (n : List Char) : List Char → Bool
  | [] => n.isEmpty
  | b :: bs => listLeads n (b :: bs) || listHasSeg n bs

/-- Python's `needle in hay` on strings (contiguous substring test). -/
def strHasSub (hay needle : String) : Bool :=
  listHasSeg needle.toList hay.toList

/-- `hasAny hay toks`: Python's `any(t in hay for t in toks)`. -/
def hasAny (hay : String) (toks : List String) : Bool :=
  toks.any (fun t => strHasSub hay t)

/-- Association-list lookup, first match wins (embeds Python dict access;
the tables below list keys in source order). -/
def alist_get {α : Type} : List (String × α) → String → Option α
  | [], _ => none
  | (k, v) :: rest, key => if k = key then some v else alist_get rest key

/-- Python's `d.get(key, dflt)`. -/
def dict_get {α : Type} (t : List (String × α)) (key : String) (dflt : α) : α :=
  match alist_get t key with
  | some v => v
  | none => dflt

/-- Python `str.lower()` (ASCII case mapping, which covers every string the
pipeline compares against; implemented over the character list so that the
kernel can evaluate it). -/
def pyLower (s : String) : String := ⟨s.data.map Char.toLower⟩

/-- Python `str.upper()`. -/
def pyUpper (s : String) : String := ⟨s.data.map Char.toUpper⟩

/-- Python `str.strip()` (drop leading and trailing whitespace). -/
def pyStrip (s : String) : String :=
  ⟨(((s.data.dropWhile Char.isWhitespace).reverse).dropWhile Char.isWhitespace).reverse⟩

/-- `str(x)` for an optional cell: pandas NaN prints as `nan`. -/
def pyStr : Option String → String
  | none => "nan"
  | some s => s

/-! ## Factor tables (constants.py) -/

/-- CREATIVE_WEIGHTS (MB), constants.py lines 12-54. -/
def CREATIVE_WEIGHTS : List (String × ℚ) :=
  [("200x200", 0.12), ("250x250", 0.15), ("300x250", 0.35), ("336x280", 0.40),
   ("728x90", 0.25), ("970x90", 0.30), ("970x250", 0.50), ("160x600", 0.28),
   ("120x600", 0.18), ("300x600", 0.45), ("300x1050", 0.65),
   ("320x50", 0.12), ("320x100", 0.18), ("300x50", 0.12), ("480x320", 0.30),
   ("320x480", 0.32), ("640x1136", 0.60), ("750x1334", 0.65), ("1080x1920", 0.80),
   ("Video", 3.0), ("Video HD", 4.5), ("Video SD", 1.5), ("Display", 0.25),
   ("Banner", 0.25), ("Native", 0.15), ("Audio", 1.0), ("Podcast", 1.5),
   ("DOOH", 0.01), ("Digital Out-of-Home", 0.01), ("Masthead", 4.0),
   ("Instream Video", 3.0), ("Outstream Video", 2.5), ("Bumper Video", 1.0),
   ("TrueView Video", 2.5), ("Rewarded Video", 3.5), ("Unknown", 0.3)]

/-- NETWORK_FACTORS (gCO2/MB), constants.py lines 60-69. -/
def NETWORK_FACTORS : List (String × ℚ) :=
  [("WiFi", 0.018), ("Fiber", 0.018), ("Fixed", 0.018), ("4G", 0.050),
   ("5G", 0.035), ("Cellular", 0.050), ("Mobile", 0.050), ("Unknown", 0.025)]

/-- DEVICE_FACTORS (power multipliers), constants.py lines 75-83. -/
def DEVICE_FACTORS : List (String × ℚ) :=
  [("Desktop", 1.0), ("Laptop", 1.0), ("Mobile", 0.6), ("Tablet", 0.75),
   ("CTV", 2.5), ("TV", 2.5), ("Unknown", 0.8)]

/-- ADTECH_FACTORS (supply-path multipliers), constants.py lines 89-102. -/
def ADTECH_FACTORS : List (String × ℚ) :=
  [("Direct", 1.0), ("Google", 1.0), ("Facebook", 1.0), ("Amazon", 1.0),
   ("Tier 1", 1.0), ("PubMatic", 1.5), ("OpenX", 1.5), ("Magnite", 1.5),
   ("Tier 2", 1.5), ("Tier 3", 2.5), ("Other", 2.0), ("Unknown", 1.8)]

/-- US_STATE_GRID_INTENSITY (gCO2/kWh), constants.py lines 121-133.
Note: the table holds the 50 states plus DC; there is no "DEFAULT_US" key,
although `ZCICalculator.get_grid_intensity` references one. -/
def US_STATE_GRID_INTENSITY : List (String × ℚ) :=
  [("AL", 450), ("AK", 180), ("AZ", 420), ("AR", 520), ("CA", 220),
   ("CO", 480), ("CT", 280), ("DE", 350), ("FL", 450), ("GA", 420),
   ("HI", 600), ("ID", 150), ("IL", 280), ("IN", 520), ("IA", 450),
   ("KS", 480), ("KY", 620), ("LA", 550), ("ME", 280), ("MD", 350),
   ("MA", 300), ("MI", 420), ("MN", 380), ("MS", 520), ("MO", 520),
   ("MT", 280), ("NE", 500), ("NV", 380), ("NH", 350), ("NJ", 320),
   ("NM", 480), ("NY", 180), ("NC", 420), ("ND", 400), ("OH", 580),
   ("OK", 450), ("OR", 200), ("PA", 380), ("RI", 300), ("SC", 420),
   ("SD", 450), ("TN", 450), ("TX", 420), ("UT", 380), ("VT", 220),
   ("VA", 380), ("WA", 180), ("WV", 650), ("WI", 400), ("WY", 550),
   ("DC", 350)]

/-- GRID_INTENSITY by country (gCO2/kWh), constants.py lines 139-280.
The Python dict literal repeats the "TH"/"THAILAND" pair with the same
value; source order is kept here, and since the duplicate values are
equal, first-match lookup coincides with Python dict semantics. -/
def GRID_INTENSITY : List (String × ℚ) :=
  [("NO", 12), ("NORWAY", 12), ("IS", 25), ("ICELAND", 25),
   ("SE", 55), ("SWEDEN", 55), ("FI", 80), ("FINLAND", 80),
   ("LU", 85), ("LUXEMBOURG", 85), ("FR", 50), ("FRANCE", 50),
   ("AT", 120), ("AUSTRIA", 120), ("CH", 35), ("SWITZERLAND", 35),
   ("PT", 220), ("PORTUGAL", 220), ("DK", 150), ("DENMARK", 150),
   ("ES", 250), ("SPAIN", 250),
   ("GB", 124), ("UK", 124), ("UNITED KINGDOM", 124),
   ("IT", 380), ("ITALY", 380), ("GR", 380), ("GREECE", 380),
   ("TR", 500), ("TURKEY", 500), ("PL", 680), ("POLAND", 680),
   ("DE", 350), ("GERMANY", 350), ("NL", 380), ("NETHERLANDS", 380),
   ("BE", 200), ("BELGIUM", 200),
   ("CZ", 380), ("CZECHIA", 380), ("CZECH REPUBLIC", 380),
   ("SK", 350), ("SLOVAKIA", 350), ("RO", 420), ("ROMANIA", 420),
   ("HR", 300), ("CROATIA", 300), ("HU", 380), ("HUNGARY", 380),
   ("SI", 280), ("SLOVENIA", 280), ("BG", 750), ("BULGARIA", 750),
   ("EE", 900), ("ESTONIA", 900), ("LV", 180), ("LATVIA", 180),
   ("LT", 280), ("LITHUANIA", 280), ("IE", 200), ("IRELAND", 200),
   ("CA", 180), ("CANADA", 180),
   ("US", 384), ("USA", 384), ("UNITED STATES", 384),
   ("MX", 420), ("MEXICO", 420),
   ("BR", 103), ("BRAZIL", 103), ("AR", 380), ("ARGENTINA", 380),
   ("CL", 280), ("CHILE", 280), ("CO", 250), ("COLOMBIA", 250),
   ("PE", 320), ("PERU", 320), ("EC", 200), ("ECUADOR", 200),
   ("VE", 180), ("VENEZUELA", 180), ("BO", 350), ("BOLIVIA", 350),
   ("PY", 45), ("PARAGUAY", 45), ("UY", 80), ("URUGUAY", 80),
   ("AU", 680), ("AUSTRALIA", 680), ("NZ", 180), ("NEW ZEALAND", 180),
   ("JP", 482), ("JAPAN", 482), ("SG", 420), ("SINGAPORE", 420),
   ("KR", 450), ("SOUTH KOREA", 450), ("KOREA", 450),
   ("TH", 550), ("THAILAND", 550), ("MY", 580), ("MALAYSIA", 580),
   ("ID", 700), ("INDONESIA", 700), ("PH", 450), ("PHILIPPINES", 450),
   ("VN", 600), ("VIETNAM", 600), ("TW", 520), ("TAIWAN", 520),
   ("HK", 580), ("HONG KONG", 580), ("PK", 650), ("PAKISTAN", 650),
   ("BD", 650), ("BANGLADESH", 650), ("LK", 450), ("SRI LANKA", 450),
   ("TH", 550), ("THAILAND", 550),
   ("CN", 640), ("CHINA", 640), ("IN", 708), ("INDIA", 708),
   ("SA", 700), ("SAUDI ARABIA", 700),
   ("AE", 650), ("UNITED ARAB EMIRATES", 650),
   ("IL", 500), ("ISRAEL", 500), ("ZA", 900), ("SOUTH AFRICA", 900),
   ("EG", 550), ("EGYPT", 550), ("NG", 600), ("NIGERIA", 600),
   ("KE", 400), ("KENYA", 400), ("MA", 450), ("MOROCCO", 450),
   ("TN", 550), ("TUNISIA", 550), ("KW", 650), ("KUWAIT", 650),
   ("QA", 650), ("QATAR", 650), ("BH", 600), ("BAHRAIN", 600),
   ("OM", 700), ("OMAN", 700), ("JO", 480), ("JORDAN", 480),
   ("LB", 500), ("LEBANON", 500),
   ("RU", 449), ("RUSSIA", 449), ("KZ", 550), ("KAZAKHSTAN", 550),
   ("UZ", 420), ("UZBEKISTAN", 420), ("TK", 500), ("TURKMENISTAN", 500),
   ("KG", 350), ("KYRGYZSTAN", 350),
   ("UA", 380), ("UKRAINE", 380), ("BY", 320), ("BELARUS", 320),
   ("MD", 400), ("MOLDOVA", 400), ("RS", 450), ("SERBIA", 450),
   ("BA", 380), ("BOSNIA", 380), ("MK", 400), ("MACEDONIA", 400),
   ("AL", 350), ("ALBANIA", 350), ("ME", 350), ("MONTENEGRO", 350),
   ("XK", 400), ("KOSOVO", 400),
   ("CI", 350), ("IVORY COAST", 350), ("GH", 400), ("GHANA", 400),
   ("TZ", 350), ("TANZANIA", 350), ("UG", 300), ("UGANDA", 300),
   ("RW", 150), ("RWANDA", 150), ("ET", 200), ("ETHIOPIA", 200),
   ("SD", 500), ("SUDAN", 500), ("DZ", 450), ("ALGERIA", 450),
   ("MM", 650), ("MYANMAR", 650), ("KH", 600), ("CAMBODIA", 600),
   ("LA", 700), ("LAOS", 700),
   ("NP", 250), ("NEPAL", 250), ("BT", 100), ("BHUTAN", 100),
   ("AF", 550), ("AFGHANISTAN", 550), ("IR", 650), ("IRAN", 650),
   ("IQ", 700), ("IRAQ", 700), ("SY", 600), ("SYRIA", 600),
   ("GE", 400), ("GEORGIA", 400), ("AM", 350), ("ARMENIA", 350),
   ("AZ", 450), ("AZERBAIJAN", 450),
   ("DEFAULT", 473), ("WORLD", 473), ("GLOBAL", 473)]

/-! ## Emissions engine, app.py variant (`calculate_carbon`, app.py lines 438-460)

A classified row carries the attributes the engine consumes: cleaned
impressions (`Imps_Clean`), creative weight in MB, the network factor
selected by `df["Network_Type"].map(NETWORK_FACTORS).fillna(0.025)`, the
grid intensity, the device factor and the adtech factor. -/

structure CRow where
  imps : ℚ
  weight : ℚ
  netFactor : ℚ
  grid : ℚ
  deviceFactor : ℚ
  adtechFactor : ℚ

/-- `df["Network_gCO2"] = Imps_Clean * Creative_Weight_MB * NetworkFactor` (app.py line 439). -/
def network_gCO2 (r : CRow) : ℚ := r.imps * r.weight * r.netFactor

/-- `df["Grid_gCO2"] = Imps_Clean * Grid_Intensity * Device_Factor * 0.0001` (app.py line 445). -/
def grid_gCO2 (r : CRow) : ℚ := r.imps * r.grid * r.deviceFactor * 0.0001

/-- `df["AdTech_gCO2"] = Imps_Clean * 0.01 * AdTech_Factor` (app.py line 452). -/
def adtech_gCO2 (r : CRow) : ℚ := r.imps * 0.01 * r.adtechFactor

/-- `df["Total_gCO2"] = Network_gCO2 + Grid_gCO2 + AdTech_gCO2` (app.py line 458). -/
def total_gCO2 (r : CRow) : ℚ := network_gCO2 r + grid_gCO2 r + adtech_gCO2 r

/-- `df["Total_Emissions_kgCO2"] = Total_gCO2 / 1000000` (app.py line 459). -/
def total_emissions_kg_app (r : CRow) : ℚ := total_gCO2 r / 1000000

/-- `df["gCO2PM"] = (Total_gCO2 / Imps_Clean) * 1000` (app.py line 460). -/
def gCO2PM_row (r : CRow) : ℚ := total_gCO2 r / r.imps * 1000

/-- `total_imps = df_calc["Imps_Clean"].sum()` (app.py line 1048). -/
def total_imps_app (rows : List CRow) : ℚ := (rows.map CRow.imps).sum

/-- `df_calc["Total_gCO2"].sum()`. -/
def sum_total_gCO2 (rows : List CRow) : ℚ := (rows.map total_gCO2).sum

/-- `global_gco2pm = (df_calc["Total_gCO2"].sum() / total_imps * 1000) if total_imps > 0 else 0`
(app.py line 1050). -/
def global_gco2pm_app (rows : List CRow) : ℚ :=
  if total_imps_app rows > 0 then sum_total_gCO2 rows / total_imps_app rows * 1000 else 0

/-! ## Emissions engine, ZCICalculator variant (`calculate_carbon`, zci_calculator.py lines 273-312) -/

/-- Attributes of one row as classified by `ZCICalculator.calculate_carbon`:
`ImpsClean`, `CreativeWeight_MB`, `NetworkFactor_gCO2_MB`, `DeviceFactor`,
`AdTechFactor`.  (The computed `GridIntensity_gCO2_kWh` column is never
used by this variant's emission formulas, so it is not a field here.) -/
structure ZRow where
  imps : ℚ
  weight : ℚ
  netFactor : ℚ
  deviceFactor : ℚ
  adtechFactor : ℚ

/-- `df['DataVolume_MB'] = ImpsClean * CreativeWeight_MB / 1000` (zci_calculator.py line 274). -/
def dataVolume_MB (z : ZRow) : ℚ := z.imps * z.weight / 1000

/-- `df['NetworkEmissions_gCO2'] = DataVolume_MB * NetworkFactor_gCO2_MB * DeviceFactor`
(zci_calculator.py lines 280-284). -/
def networkEmissions_zci (z : ZRow) : ℚ := dataVolume_MB z * z.netFactor * z.deviceFactor

/-- `df['AdTechEmissions_gCO2'] = DataVolume_MB * 0.01 * AdTechFactor`
(zci_calculator.py lines 287-291). -/
def adtechEmissions_zci (z : ZRow) : ℚ := dataVolume_MB z * 0.01 * z.adtechFactor

/-- `df['TotalEmissions_gCO2'] = NetworkEmissions_gCO2 + AdTechEmissions_gCO2`
(zci_calculator.py lines 294-297): this variant adds only two components. -/
def totalEmissions_zci (z : ZRow) : ℚ := networkEmissions_zci z + adtechEmissions_zci z

/-- `df['TotalEmissions_kgCO2'] = TotalEmissions_gCO2 / 1000` (zci_calculator.py line 300). -/
def totalEmissions_kg_zci (z : ZRow) : ℚ := totalEmissions_zci z / 1000

/-- `df['gCO2PM'] = (TotalEmissions_gCO2 / ImpsClean) * 1000` (zci_calculator.py line 303);
rows reaching this point have `ImpsClean > 0`, so the inf/NaN replacement
of lines 306-307 never fires for them. -/
def gCO2PM_zci (z : ZRow) : ℚ := totalEmissions_zci z / z.imps * 1000

/-- `self.total_impressions = df['ImpsClean'].sum()` (zci_calculator.py line 310). -/
def total_imps_zci (rows : List ZRow) : ℚ := (rows.map ZRow.imps).sum

/-- `df['TotalEmissions_gCO2'].sum()`. -/
def sum_totalEmissions_zci (rows : List ZRow) : ℚ := (rows.map totalEmissions_zci).sum

/-- `self.avg_gco2pm = df['gCO2PM'].mean()` (zci_calculator.py line 312): the
UNWEIGHTED mean of per-row scores, reported by the PDF export as the
"Global gCO₂PM Score".  (pandas' mean of an empty column is NaN; every use
below is on a nonempty list, where the formula is sum / length.) -/
def avg_gco2pm_zci (rows : List ZRow) : ℚ :=
  if rows.length = 0 then 0 else (rows.map gCO2PM_zci).sum / rows.length

/-- The impression-weighted campaign score (`sum(total_gCO2)/sum(impressions)*1000`)
computed from the ZCICalculator variant's per-row totals, for comparison
with what that variant actually reports. -/
def weighted_gco2pm_zci (rows : List ZRow) : ℚ :=
  sum_totalEmissions_zci rows / total_imps_zci rows * 1000

/-! ## Factor resolution helpers (app.py and zci_calculator.py) -/

/-- Scan the table for the first key `k` with `k.lower() in s` (the Python
pattern `for key, val in TABLE.items(): if key.lower() in s: return val`).
`s` is the already-lowercased probe string. -/
def subst_scan (t : List (String × ℚ)) (s : String) : Option ℚ :=
  match t with
  | [] => none
  | (k, v) :: rest => if strHasSub s (pyLower k) then some v else subst_scan rest s

/-- Scan the table for the first key `k` with `k.lower() == s` (case-insensitive
exact match; `s` is already lowercased). -/
def exact_ci_scan (t : List (String × ℚ)) (s : String) : Option ℚ :=
  match t with
  | [] => none
  | (k, v) :: rest => if pyLower k = s then some v else exact_ci_scan rest s

/-- `get_creative_weight(fmt)` (app.py lines 321-331): case-sensitive exact key
lookup, then case-insensitive key-substring scan, then
`CREATIVE_WEIGHTS.get("Unknown", 0.3)`. -/
def get_creative_weight (fmt : String) : ℚ :=
  match alist_get CREATIVE_WEIGHTS fmt with
  | some v => v
  | none =>
    match subst_scan CREATIVE_WEIGHTS (pyLower fmt) with
    | some v => v
    | none => dict_get CREATIVE_WEIGHTS "Unknown" 0.3

/-- `get_device_factor(device_str)` (app.py lines 395-406): NaN falls back to the
"Unknown" entry; otherwise case-insensitive exact key match, then
key-substring scan, then the "Unknown" entry. -/
def get_device_factor (device : Option String) : ℚ :=
  match device with
  | none => dict_get DEVICE_FACTORS "Unknown" 0.8
  | some s =>
    let dl := pyLower s
    match exact_ci_scan DEVICE_FACTORS dl with
    | some v => v
    | none =>
      match subst_scan DEVICE_FACTORS dl with
      | some v => v
      | none => dict_get DEVICE_FACTORS "Unknown" 0.8

/-- `get_adtech_factor(exchange_str, dealtype_str)` (app.py lines 416-428):
deal-type keywords first (direct/pmp/private/guaranteed → "Direct" tier),
then exchange-name key-substring scan, then the "Unknown" entry. -/
def get_adtech_factor (exchange dealtype : Option String) : ℚ :=
  match
    (match dealtype with
     | some d =>
       if hasAny (pyLower d) ["direct", "pmp", "private", "guaranteed"]
       then some (dict_get ADTECH_FACTORS "Direct" 1.0) else none
     | none => none)
  with
  | some v => v
  | none =>
    match
      (match exchange with
       | some e => subst_scan ADTECH_FACTORS (pyLower e)
       | none => none)
    with
    | some v => v
    | none => dict_get ADTECH_FACTORS "Unknown" 1.8

/-- `df["Network_Type"].map(NETWORK_FACTORS).fillna(0.025)` (app.py line 442):
per network-type label, the table value or 0.025. -/
def network_factor_app (ntype : String) : ℚ := dict_get NETWORK_FACTORS ntype 0.025

/-- `ZCICalculator.get_network_factor` (zci_calculator.py lines 159-170):
key-substring scan over NETWORK_FACTORS, with the "Unknown" entry as the
fallback for NaN and for unmatched strings. -/
def get_network_factor (ntype : Option String) : ℚ :=
  match ntype with
  | none => dict_get NETWORK_FACTORS "Unknown" 0.025
  | some s =>
    match subst_scan NETWORK_FACTORS (pyLower s) with
    | some v => v
    | none => dict_get NETWORK_FACTORS "Unknown" 0.025

/-- `safe_get_grid_intensity(country, default=300.0)` (constants.py lines 397-402):
NaN → 300.0; otherwise exact lookup of `str(country).upper().strip()` with
the function's own 300.0 default (NOT the table's "DEFAULT" entry). -/
def safe_get_grid_intensity (country : Option String) : ℚ :=
  match country with
  | none => 300
  | some s => dict_get GRID_INTENSITY (pyStrip (pyUpper s)) 300

/-- `ZCICalculator.get_grid_intensity(country, state)` (zci_calculator.py lines
185-195), embedded as `Except` because the US-state branch evaluates
`US_STATE_GRID_INTENSITY['DEFAULT_US']` as the (eagerly evaluated) default of
`.get`, and that key does not exist in the table, so the branch raises
KeyError whenever it is taken. -/
def get_grid_intensity (country state : Option String) : Except String ℚ :=
  if state.isSome = true ∧ ["US", "USA", "UNITED STATES"].contains (pyUpper (pyStr country)) = true then
    match alist_get US_STATE_GRID_INTENSITY "DEFAULT_US" with
    | some dflt =>
      Except.ok (dict_get US_STATE_GRID_INTENSITY ⟨((pyUpper (pyStr state)).data.take 2)⟩ dflt)
    | none => Except.error "KeyError: DEFAULT_US"
  else if country.isNone then
    Except.ok 400
  else
    Except.ok (dict_get GRID_INTENSITY (pyUpper (pyStr country))
      (dict_get GRID_INTENSITY "DEFAULT" 400))

/-! ## Column resolution (app.py `detect_columns`, zci_calculator.py `find_column_safe`) -/

/-- `{str(col).lower(): col for col in available_columns}`: a Python dict
comprehension in which a later column overwrites an earlier one with the
same lowercase form, embedded by reversing before first-match lookup. -/
def lower_key_map (cols : List String) : List (String × String) :=
  (cols.map (fun c => (pyLower c, c))).reverse

/-- The exact phase shared by both resolvers: the first search term whose
lowercase form is a key of the lowercased-column dict.  app.py's
`detect_columns` (lines 714-766) consists solely of this loop, run once per
role with that role's term list. -/
def exact_phase (terms cols : List String) : Option String :=
  match terms with
  | [] => none
  | t :: ts =>
    match alist_get (lower_key_map cols) (pyLower t) with
    | some c => some c
    | none => exact_phase ts cols

/-- The partial phase of `find_column_safe` (zci_calculator.py lines 52-55):
columns in order, and for each column every term, returning the first
column that contains some term as a substring. -/
def partial_phase (cols terms : List String) : Option String :=
  match cols with
  | [] => none
  | c :: cs =>
    if terms.any (fun t => strHasSub (pyLower c) (pyLower t))
    then some c else partial_phase cs terms

/-- `ZCICalculator.find_column_safe(search_terms, available_columns)`
(zci_calculator.py lines 32-57): exact phase, then partial phase. -/
def find_column_safe (terms cols : List String) : Option String :=
  match exact_phase terms cols with
  | some c => some c
  | none => partial_phase cols terms

/-- app.py `detect_columns` resolves each role with this exact-only loop
(its term lists are written pre-lowercased in the source). -/
def detect_role (terms cols : List String) : Option String := exact_phase terms cols

/-! ## Format inference (app.py `infer_format`, lines 273-319) -/

/-- Take exactly `k` decimal digits from the front of the list, returning them
and the remainder (regex `\d{k}` anchored at the front). -/
def takeDigits : Nat → List Char → Option (List Char × List Char)
  | 0, rest => some ([], rest)
  | _ + 1, [] => none
  | k + 1, c :: cs =>
    if c.isDigit then
      match takeDigits k cs with
      | some (d, rest) => some (c :: d, rest)
      | none => none
    else none

/-- Try the second group `(\d{2,4})` at the front of `l`, greedily (4, then 3,
then 2 digits), returning the digits matched. -/
def wxhGroup2 (l : List Char) : Option (List Char) :=
  match takeDigits 4 l with
  | some (d, _) => some d
  | none =>
    match takeDigits 3 l with
    | some (d, _) => some d
    | none =>
      match takeDigits 2 l with
      | some (d, _) => some d
      | none => none

/-- Try `(\d{k})x(\d{2,4})` anchored at the front of `l`. -/
def wxhTryLen (k : Nat) (l : List Char) : Option (List Char) :=
  match takeDigits k l with
  | none => none
  | some (d1, rest) =>
    match rest with
    | [] => none
    | c :: rest2 =>
      if c = 'x' then
        match wxhGroup2 rest2 with
        | some d2 => some (d1 ++ 'x' :: d2)
        | none => none
      else none

/-- Try `(\d{2,4})x(\d{2,4})` anchored at the front, greedily in the first
group (4, then 3, then 2 digits), as Python's backtracking does. -/
def wxhTryAt (l : List Char) : Option (List Char) :=
  match wxhTryLen 4 l with
  | some r => some r
  | none =>
    match wxhTryLen 3 l with
    | some r => some r
    | none => wxhTryLen 2 l

/-- Leftmost match: scan every start position in order (regex `re.search`). -/
def searchWxH : List Char → Option (List Char)
  | [] => none
  | c :: cs =>
    match wxhTryAt (c :: cs) with
    | some r => some r
    | none => searchWxH cs

/-- `re.search(r"(\d{2,4})x(\d{2,4})", txt)` followed by `f"{w}x{h}"`
(app.py lines 292-295): the matched dimension string, if any. -/
def findWxH (txt : String) : Option String := (searchWxH txt.toList).map (⟨·⟩)

/-- One cell's contribution to `texts_checked` (app.py lines 277-285): non-null,
lowercased, stripped, and dropped when empty or equal to "total". -/
def norm_cell (v : Option String) : Option String :=
  match v with
  | none => none
  | some s =>
    let t := pyStrip (pyLower s)
    if t = "" ∨ t = "total" then none else some t

/-- `texts_checked` (app.py lines 275-285): the creative-size text first, then
the creative-type text. -/
def candidate_texts (size ctype : Option String) : List String :=
  (norm_cell size).toList ++ (norm_cell ctype).toList

/-- The size-pattern pass (app.py lines 291-295): first candidate text
containing a WxH pattern wins. -/
def wxh_pass : List String → Option String
  | [] => none
  | t :: ts =>
    match findWxH t with
    | some d => some d
    | none => wxh_pass ts

/-- The strong-keyword pass (app.py lines 298-307). -/
def strong_pass : List String → Option String
  | [] => none
  | t :: ts =>
    if strHasSub t "instream" || strHasSub t "in-stream" then some "Instream Video"
    else if strHasSub t "outstream" then some "Outstream Video"
    else if strHasSub t "video" && !strHasSub t "instream" && !strHasSub t "outstream"
    then some "Video"
    else if strHasSub t "masthead" then some "Masthead"
    else strong_pass ts

/-- The generic-keyword pass (app.py lines 310-317). -/
def generic_pass : List String → Option String
  | [] => none
  | t :: ts =>
    if strHasSub t "native" then some "Native"
    else if strHasSub t "audio" || strHasSub t "podcast" then some "Audio"
    else if strHasSub t "dooh" || strHasSub t "ooh" then some "DOOH"
    else generic_pass ts

/-- `infer_format(row, col_creative_size, col_creative_type)` (app.py lines
273-319): size pattern first, then strong keywords, then generic keywords,
then "Display"; an empty candidate list also gives "Display". -/
def infer_format (size ctype : Option String) : String :=
  let texts := candidate_texts size ctype
  match wxh_pass texts with
  | some d => d
  | none =>
    match strong_pass texts with
    | some f => f
    | none =>
      match generic_pass texts with
      | some f => f
      | none => "Display"

/-- `ZCICalculator.infer_format(creative_type, creative_size)` (zci_calculator.py
lines 314-335): keyword chain on the type text only, then an
x-or-digit test on the size text, defaulting to "Unknown". -/
def infer_format_zci (ctype size : Option String) : String :=
  match ctype, size with
  | none, none => "Unknown"
  | _, _ =>
    let cs := match ctype with | some s => pyLower s | none => ""
    let ss := match size with | some s => pyLower s | none => ""
    if strHasSub cs "video" then "Video"
    else if strHasSub cs "audio" then "Audio"
    else if strHasSub cs "dooh" || strHasSub cs "out-of-home" then "DOOH"
    else if strHasSub cs "native" then "Native"
    else if strHasSub cs "display" || strHasSub cs "banner" then "Display"
    else if strHasSub ss "x" || ss.data.any Char.isDigit then "Display"
    else "Unknown"

/-! ## Network inference (app.py `infer_network`, lines 375-390) -/

/-- The device fallback of `infer_network` (app.py lines 385-390): mobile-like
device words → Cellular, otherwise "WiFi". -/
def infer_network_device_part (dev : Option String) : String :=
  match dev with
  | some s => if hasAny (pyLower s) ["mobile", "phone"] then "Cellular" else "WiFi"
  | none => "WiFi"

/-- `infer_network(row)` (app.py lines 375-390): explicit network hints first
(wifi-like → WiFi, 5g → 5G, 4g/lte → 4G), then the device fallback.
`none` stands for a missing column or a null cell. -/
def infer_network (net dev : Option String) : String :=
  match net with
  | some s =>
    let n := pyLower s
    if hasAny n ["wifi", "wi-fi", "wlan", "fiber"] then "WiFi"
    else if strHasSub n "5g" then "5G"
    else if hasAny n ["4g", "lte"] then "4G"
    else infer_network_device_part dev
  | none => infer_network_device_part dev

/-! ## Dataset cleaning and error policy (app.py lines 333-363 and `main`;
zci_calculator.py `clean_data`, lines 101-127) -/

/-- One raw input row: its cell values as strings (in column order, as
`detect_total_row` iterates them) and the result of coercing its
impressions cell to a number (`pd.to_numeric(..., errors="coerce")`:
`none` is NaN). -/
structure RawRow where
  cells : List String
  impsVal : Option Int
deriving DecidableEq

/-- The TOTAL-row indicator tokens (app.py line 335). -/
def total_indicators : List String := ["total", "grand total", "sum", "overall", "all"]

/-- `detect_total_row`'s per-row test (app.py lines 338-344): some cell's
lowercased, stripped text contains one of the indicator tokens. -/
def is_total_row (r : RawRow) : Bool :=
  r.cells.any (fun c => hasAny (pyStrip (pyLower c)) total_indicators)

/-- `pd.to_numeric(df[col_imps], errors="coerce").fillna(0).astype(int)`
(app.py line 358). -/
def imps_clean (r : RawRow) : Int := r.impsVal.getD 0

/-- The two dataset-level failures app.py distinguishes. -/
inductive AppError where
  | missingImpressions
  | noValidRows
deriving DecidableEq

/-- The data-cleaning gate of app.py's `calculate_carbon` (lines 351-363):
drop TOTAL rows, coerce and filter impressions, and stop with the
"No valid data rows found after cleaning" error when nothing remains;
otherwise hand the kept impressions on to the emission computation. -/
def calculate_carbon_gate (rows : List RawRow) : Except AppError (List Int) :=
  let rows1 := rows.filter (fun r => !is_total_row r)
  let rows2 := rows1.filter (fun r => imps_clean r > 0)
  if rows2.isEmpty then Except.error AppError.noValidRows
  else Except.ok (rows2.map imps_clean)

/-- app.py `main` (lines 1036 and 1232-1233): without a resolved impressions
column it reports "Please select an Impressions column" and computes
nothing; with one it runs `calculate_carbon`. -/
def app_pipeline (colImps : Option String) (rows : List RawRow) : Except AppError (List Int) :=
  match colImps with
  | none => Except.error AppError.missingImpressions
  | some _ => calculate_carbon_gate rows

/-- `ZCICalculator.clean_data` (zci_calculator.py lines 101-127): raise
`ValueError("No Impressions column found")` when the impressions role is
unresolved; otherwise dropna on the coerced impressions, keep rows with
impressions > 0, and drop duplicate rows.  There is NO empty-result check:
the pipeline continues into `calculate_carbon` and the exports even when
zero rows remain, producing a summary whose totals are 0 (and whose mean
gCO2PM is pandas NaN).  The summary is represented by the total
impressions of the kept rows. -/
def zci_process (colImps : Option String) (rows : List RawRow) : Except String Int :=
  match colImps with
  | none => Except.error "No Impressions column found"
  | some _ =>
    let kept := ((rows.filter (fun r => r.impsVal.isSome)).filter
      (fun r => imps_clean r > 0)).eraseDups
    Except.ok ((kept.map imps_clean).sum)

/-! ## Scenario projector, app.py variant (`generate_what_if_scenarios`,
lines 464-616)

Each scenario is (name, new_gco2pm, reduction_pct); the informational
`details` strings and the emoji prefixes of the names are omitted.  The source appends the twelve scenarios in
order and finally returns them sorted by reduction percentage; the sort
only permutes the list, so the per-scenario properties below are stated by
membership and are unaffected by it. -/

def generate_what_if_scenarios (total_imps total_emissions_kg global_gco2pm : ℚ) :
    List (String × ℚ × ℚ) :=
  let wifi_reduction := (total_imps * 0.6 *
    (dict_get NETWORK_FACTORS "Cellular" 0.03 - dict_get NETWORK_FACTORS "WiFi" 0.018)
    * 0.0001) / 1000000
  let new_kg_wifi := max 0 (total_emissions_kg - wifi_reduction)
  let new_gco2pm_wifi := if total_imps > 0 then new_kg_wifi * 1000000 / total_imps else 0
  let reduction_wifi := if total_emissions_kg > 0 then
    (total_emissions_kg - new_kg_wifi) / total_emissions_kg * 100 else 0
  let adtech_reduction := (total_imps * 0.01 * (1.8 - 1.0)) / 1000000
  let new_kg_tier1 := max 0 (total_emissions_kg - adtech_reduction)
  let new_gco2pm_tier1 := if total_imps > 0 then new_kg_tier1 * 1000000 / total_imps else 0
  let reduction_tier1 := if total_emissions_kg > 0 then
    (total_emissions_kg - new_kg_tier1) / total_emissions_kg * 100 else 0
  let freq_cap_imps := total_imps * 0.15
  let freq_reduction := (freq_cap_imps * global_gco2pm / 1000) / 1000000
  let new_kg_freq := max 0 (total_emissions_kg - freq_reduction)
  let new_gco2pm_freq := if total_imps - freq_cap_imps > 0 then
    new_kg_freq * 1000000 / (total_imps - freq_cap_imps) else global_gco2pm
  let reduction_freq := if total_emissions_kg > 0 then
    (total_emissions_kg - new_kg_freq) / total_emissions_kg * 100 else 0
  let mfa_block_imps := total_imps * 0.08
  let mfa_reduction := (mfa_block_imps * global_gco2pm / 1000) / 1000000
  let new_kg_mfa := max 0 (total_emissions_kg - mfa_reduction)
  let new_gco2pm_mfa := if total_imps - mfa_block_imps > 0 then
    new_kg_mfa * 1000000 / (total_imps - mfa_block_imps) else global_gco2pm
  let reduction_mfa := if total_emissions_kg > 0 then
    (total_emissions_kg - new_kg_mfa) / total_emissions_kg * 100 else 0
  let green_hours_reduction := total_emissions_kg * 0.18
  let new_kg_green := max 0 (total_emissions_kg - green_hours_reduction)
  let new_gco2pm_green := if total_imps > 0 then new_kg_green * 1000000 / total_imps else 0
  let reduction_green := if total_emissions_kg > 0 then
    (total_emissions_kg - new_kg_green) / total_emissions_kg * 100 else 0
  let video_to_display := total_imps * 0.5 * 0.08
  let video_reduction := (video_to_display * global_gco2pm / 1000) / 1000000
  let new_kg_video := max 0 (total_emissions_kg - video_reduction)
  let new_gco2pm_video := if total_imps > 0 then new_kg_video * 1000000 / total_imps else 0
  let reduction_video := if total_emissions_kg > 0 then
    (total_emissions_kg - new_kg_video) / total_emissions_kg * 100 else 0
  let mobile_reduction := total_emissions_kg * 0.12
  let new_kg_mobile := max 0 (total_emissions_kg - mobile_reduction)
  let new_gco2pm_mobile := if total_imps > 0 then new_kg_mobile * 1000000 / total_imps else 0
  let reduction_mobile := if total_emissions_kg > 0 then
    (total_emissions_kg - new_kg_mobile) / total_emissions_kg * 100 else 0
  let compression_reduction := total_emissions_kg * 0.15
  let new_kg_compression := max 0 (total_emissions_kg - compression_reduction)
  let new_gco2pm_compression := if total_imps > 0 then
    new_kg_compression * 1000000 / total_imps else 0
  let reduction_compression := if total_emissions_kg > 0 then
    (total_emissions_kg - new_kg_compression) / total_emissions_kg * 100 else 0
  let native_adoption := total_imps * 0.25 * 0.05
  let native_reduction := (native_adoption * global_gco2pm / 1000) / 1000000
  let new_kg_native := max 0 (total_emissions_kg - native_reduction)
  let new_gco2pm_native := if total_imps > 0 then new_kg_native * 1000000 / total_imps else 0
  let reduction_native := if total_emissions_kg > 0 then
    (total_emissions_kg - new_kg_native) / total_emissions_kg * 100 else 0
  let ivt_reduction := total_emissions_kg * 0.1
  let new_kg_ivt := max 0 (total_emissions_kg - ivt_reduction)
  let new_gco2pm_ivt := if total_imps > 0 then new_kg_ivt * 1000000 / total_imps else 0
  let reduction_ivt := if total_emissions_kg > 0 then
    (total_emissions_kg - new_kg_ivt) / total_emissions_kg * 100 else 0
  let contextual_reduction := total_emissions_kg * 0.08
  let new_kg_contextual := max 0 (total_emissions_kg - contextual_reduction)
  let new_gco2pm_contextual := if total_imps > 0 then
    new_kg_contextual * 1000000 / total_imps else 0
  let reduction_contextual := if total_emissions_kg > 0 then
    (total_emissions_kg - new_kg_contextual) / total_emissions_kg * 100 else 0
  let combined_reduction := total_emissions_kg * 0.45
  let new_kg_combined := max 0 (total_emissions_kg - combined_reduction)
  let new_gco2pm_combined := if total_imps > 0 then
    new_kg_combined * 1000000 / total_imps else 0
  let reduction_combined := if total_emissions_kg > 0 then
    (total_emissions_kg - new_kg_combined) / total_emissions_kg * 100 else 0
  [("WiFi Adoption (60%)", new_gco2pm_wifi, reduction_wifi),
   ("Tier 1 SPO (100%)", new_gco2pm_tier1, reduction_tier1),
   ("Frequency Cap (3/day)", new_gco2pm_freq, reduction_freq),
   ("MFA Blocklist", new_gco2pm_mfa, reduction_mfa),
   ("Green Hours Only (22-06)", new_gco2pm_green, reduction_green),
   ("Video to Display Mix (50%)", new_gco2pm_video, reduction_video),
   ("Mobile-First Strategy", new_gco2pm_mobile, reduction_mobile),
   ("Compression & Optimization", new_gco2pm_compression, reduction_compression),
   ("Native Format Adoption", new_gco2pm_native, reduction_native),
   ("IVT Elimination", new_gco2pm_ivt, reduction_ivt),
   ("Contextual Targeting", new_gco2pm_contextual, reduction_contextual),
   ("Green Champion (All)", new_gco2pm_combined, reduction_combined)]

/-! ## Scenario projector, ZCICalculator variant (`compute_whatif_scenarios`,
zci_calculator.py lines 364-494)

The function reads the campaign aggregates (`total_impressions`,
`avg_gco2pm`) and, for the five conditional scenarios, the impression
sums of the rows matched by the corresponding pandas filters
(`str.contains('cellular|4g|5g|mobile')`, `Tier.isin(['tier2','tier3'])`,
`str.contains('video')`, `GridIntensity > 500`, MFA-domain membership);
those filtered sums enter here as inputs, together with the
column-presence flags that guard each conditional scenario.  Each entry
is (name, new_score, reduction_pct); the `details` strings and the emoji
prefixes of the names are omitted.
Scenario 12 ("All Combined") multiplies the SUM of all previously
inserted reduction percentages by 0.6. -/
def compute_whatif_scenarios (total_imps current_score cellular_imps tier23_imps
    video_imps high_carbon_imps mfa_imps : ℚ)
    (has_network has_exchange has_creative has_country has_site : Bool) :
    List (String × ℚ × ℚ) :=
  let s1 : List (String × ℚ × ℚ) :=
    if has_network = true ∧ cellular_imps > 0 then
      let rp := cellular_imps / total_imps * 0.30
      [("100% Wi-Fi Adoption", current_score * (1 - rp), rp * 100)]
    else []
  let s2 : List (String × ℚ × ℚ) :=
    if has_exchange = true ∧ tier23_imps > 0 then
      let rp := tier23_imps / total_imps * 0.35
      [("Tier 1 Supply Path", current_score * (1 - rp), rp * 100)]
    else []
  let s3 : List (String × ℚ × ℚ) :=
    [("Frequency Cap 3/user/day", current_score * 0.85, 15.0)]
  let s4 : List (String × ℚ × ℚ) :=
    if has_creative = true ∧ video_imps > 0 then
      let rp := video_imps / total_imps * 0.30
      [("Video Bitrate 720p", current_score * (1 - rp), rp * 100)]
    else []
  let s5 : List (String × ℚ × ℚ) :=
    if has_country = true ∧ high_carbon_imps > 0 then
      let rp := high_carbon_imps / total_imps * 0.50
      [("Green Grid Focus", current_score * (1 - rp), rp * 100)]
    else []
  let s6 : List (String × ℚ × ℚ) :=
    if has_site = true ∧ mfa_imps > 0 then
      let rp := mfa_imps / total_imps * 0.25
      [("MFA Exclusion", current_score * (1 - rp), rp * 100)]
    else []
  let s7 : List (String × ℚ × ℚ) := [("30% DOOH Migration", current_score * 0.75, 25.0)]
  let s8 : List (String × ℚ × ℚ) := [("Native Format Priority", current_score * 0.80, 20.0)]
  let s9 : List (String × ℚ × ℚ) := [("Off-Peak Scheduling", current_score * 0.90, 10.0)]
  let s10 : List (String × ℚ × ℚ) := [("CTV Reduction (-50%)", current_score * 0.88, 12.0)]
  let s11 : List (String × ℚ × ℚ) := [("Contextual Targeting", current_score * 0.92, 8.0)]
  let base := s1 ++ s2 ++ s3 ++ s4 ++ s5 ++ s6 ++ s7 ++ s8 ++ s9 ++ s10 ++ s11
  let max_reduction := (base.map (fun p => p.2.2)).sum * 0.6
  base ++ [("All Combined", current_score * (1 - max_reduction / 100), max_reduction)]

/-! ## Theorems -/

/-- Claim C2 (amended): app.py's engine computes the three additive components
exactly as claimed; the ZCICalculator engine computes only a network and an
adtech component from the scaled data volume, with no grid term. -/
theorem C2_components_amended :
    (∀ r : CRow, total_gCO2 r =
      r.imps * r.weight * r.netFactor + r.imps * r.grid * r.deviceFactor * 0.0001
        + r.imps * 0.01 * r.adtechFactor)
  ∧ (∀ z : ZRow, totalEmissions_zci z =
      z.imps * z.weight / 1000 * z.netFactor * z.deviceFactor
        + z.imps * z.weight / 1000 * 0.01 * z.adtechFactor) :=
  ⟨fun _ => rfl, fun _ => rfl⟩

/-- Claim C2 counterexample. -/
theorem C2_counterexample_zci_formula :
    totalEmissions_zci ⟨1000, 1, 0.018, 1, 1.8⟩ ≠
      1000 * 1 * 0.018 + 1000 * 400 * 1 * 0.0001 + 1000 * 0.01 * 1.8 := by
  norm_num [totalEmissions_zci, networkEmissions_zci, adtechEmissions_zci, dataVolume_MB]

/-- Claim C3 evaluation. -/
theorem C3_kg_conversion_eval :
    total_gCO2 ⟨100000, 0, 0.025, 0, 1, 1⟩ = 1000
  ∧ total_emissions_kg_app ⟨100000, 0, 0.025, 0, 1, 1⟩ = 0.001
  ∧ total_emissions_kg_app ⟨100000, 0, 0.025, 0, 1, 1⟩ ≠
      total_gCO2 ⟨100000, 0, 0.025, 0, 1, 1⟩ / 1000
  ∧ (∀ z : ZRow, totalEmissions_kg_zci z = totalEmissions_zci z / 1000) := by
  refine ⟨?_, ?_, ?_, fun _ => rfl⟩ <;>
    norm_num [total_emissions_kg_app, total_gCO2, network_gCO2, grid_gCO2, adtech_gCO2]

/-- Claim C10. -/
theorem C10_network_default_wifi (net dev : Option String)
    (hnet : ∀ s, net = some s → hasAny (pyLower s)
      ["wifi", "wi-fi", "wlan", "fiber", "5g", "4g", "lte"] = false)
    (hdev : ∀ s, dev = some s → hasAny (pyLower s) ["mobile", "phone"] = false) :
    infer_network net dev = "WiFi" := by
  have hdevpart : infer_network_device_part dev = "WiFi" := by
    cases dev with
    | none => rfl
    | some d => simp [infer_network_device_part, hdev d rfl]
  cases net with
  | none => simpa [infer_network] using hdevpart
  | some s =>
    have h := hnet s rfl
    simp only [hasAny, List.any_cons, List.any_nil, Bool.or_eq_false_iff] at h
    obtain ⟨h1, h2, h3, h4, h5, h6, h7, -⟩ := h
    simp [infer_network, hasAny, h1, h2, h3, h4, h5, h6, h7, hdevpart]

/-- Claim C10 witness. -/
theorem C10_network_default_wifi_witness :
    infer_network (some "Ethernet Cable") (some "Desktop") = "WiFi" := by
  apply C10_network_default_wifi
  · intro s hs; injection hs with h; subst h; decide
  · intro s hs; injection hs with h; subst h; decide

set_option maxRecDepth 8000 in
/-- Claim C6 amended. -/
theorem C6_fallback_amended :
    (alist_get CREATIVE_WEIGHTS "Unknown" = some 0.3
      ∧ ∀ s, alist_get CREATIVE_WEIGHTS s = none →
          subst_scan CREATIVE_WEIGHTS (pyLower s) = none → get_creative_weight s = 0.3)
  ∧ (alist_get DEVICE_FACTORS "Unknown" = some 0.8
      ∧ get_device_factor none = 0.8
      ∧ ∀ s, exact_ci_scan DEVICE_FACTORS (pyLower s) = none →
          subst_scan DEVICE_FACTORS (pyLower s) = none → get_device_factor (some s) = 0.8)
  ∧ (alist_get NETWORK_FACTORS "Unknown" = some 0.025
      ∧ (∀ s, alist_get NETWORK_FACTORS s = none → network_factor_app s = 0.025)
      ∧ ∀ s, subst_scan NETWORK_FACTORS (pyLower s) = none →
          get_network_factor (some s) = 0.025)
  ∧ (alist_get ADTECH_FACTORS "Unknown" = some 1.8
      ∧ ∀ e d, hasAny (pyLower d) ["direct", "pmp", "private", "guaranteed"] = false →
          subst_scan ADTECH_FACTORS (pyLower e) = none →
          get_adtech_factor (some e) (some d) = 1.8)
  ∧ (safe_get_grid_intensity none = 300
      ∧ (∀ s, alist_get GRID_INTENSITY (pyStrip (pyUpper s)) = none →
          safe_get_grid_intensity (some s) = 300)
      ∧ alist_get GRID_INTENSITY "DEFAULT" = some 473) := by
  have hdef : alist_get GRID_INTENSITY "DEFAULT" = some 473 := by decide
  refine ⟨⟨rfl, fun s h1 h2 => ?_⟩, ⟨rfl, rfl, fun s h1 h2 => ?_⟩,
    ⟨rfl, fun s h1 => ?_, fun s h1 => ?_⟩, ⟨rfl, fun e d h1 h2 => ?_⟩,
    ⟨rfl, fun s h1 => ?_, hdef⟩⟩
  · simp only [get_creative_weight, h1, h2]; rfl
  · simp only [get_device_factor, h1, h2]; rfl
  · simp only [network_factor_app, dict_get, h1]
  · simp only [get_network_factor, h1]; rfl
  · simp only [get_adtech_factor, h1, h2]; rfl
  · simp only [safe_get_grid_intensity, dict_get, h1]

set_option maxRecDepth 8000 in
/-- Claim C6 counterexample. -/
theorem C6_counterexample_grid_constant :
    safe_get_grid_intensity (some "Atlantis") = 300
  ∧ alist_get GRID_INTENSITY "DEFAULT" = some 473
  ∧ (300 : ℚ) ≠ 473 := ⟨by decide, by decide, by norm_num⟩

set_option maxRecDepth 8000 in
/-- Claim C6 witness. -/
theorem C6_fallback_witness :
    get_creative_weight "Hologram" = 0.3
  ∧ get_device_factor (some "Fridge") = 0.8
  ∧ network_factor_app "Carrier Pigeon" = 0.025
  ∧ get_network_factor (some "Carrier Pigeon") = 0.025
  ∧ get_adtech_factor (some "MysteryExchange") (some "open auction") = 1.8
  ∧ safe_get_grid_intensity (some "Atlantis") = 300 :=
  ⟨C6_fallback_amended.1.2 "Hologram" (by decide) (by decide),
   C6_fallback_amended.2.1.2.2 "Fridge" (by decide) (by decide),
   C6_fallback_amended.2.2.1.2.1 "Carrier Pigeon" (by decide),
   C6_fallback_amended.2.2.1.2.2 "Carrier Pigeon" (by decide),
   C6_fallback_amended.2.2.2.1.2 "MysteryExchange" "open auction" (by decide) (by decide),
   C6_fallback_amended.2.2.2.2.2.1 "Atlantis" (by decide)⟩

set_option maxRecDepth 8000 in
/-- Claim C7 amended. -/
theorem C7_grid_resolution_amended :
    (∀ c st, ["US", "USA", "UNITED STATES"].contains (pyUpper (pyStr c)) = true →
       get_grid_intensity c (some st) = Except.error "KeyError: DEFAULT_US")
  ∧ (∀ s v, alist_get GRID_INTENSITY (pyUpper s) = some v →
       get_grid_intensity (some s) none = Except.ok v)
  ∧ (∀ s, alist_get GRID_INTENSITY (pyUpper s) = none →
       get_grid_intensity (some s) none = Except.ok 473)
  ∧ get_grid_intensity (some "UNITED STATES OF AMERICA") none = Except.ok 473
  ∧ get_grid_intensity none none = Except.ok 400 := by
  have hdus : alist_get US_STATE_GRID_INTENSITY "DEFAULT_US" = none := by decide
  have hdef : alist_get GRID_INTENSITY "DEFAULT" = some 473 := by decide
  have husa : alist_get GRID_INTENSITY (pyUpper "UNITED STATES OF AMERICA") = none := by decide
  refine ⟨fun c st h => ?_, fun s v h => ?_, fun s h => ?_, ?_, rfl⟩
  · unfold get_grid_intensity
    rw [if_pos ⟨rfl, h⟩, hdus]
  · unfold get_grid_intensity
    rw [if_neg (by simp)]
    simp [pyStr, dict_get, h]
  · unfold get_grid_intensity
    rw [if_neg (by simp)]
    simp [pyStr, dict_get, h, hdef]
  · unfold get_grid_intensity
    rw [if_neg (by simp)]
    simp [pyStr, dict_get, husa, hdef]

set_option maxRecDepth 8000 in
/-- Claim C7 counterexample. -/
theorem C7_counterexample_state_keyerror :
    get_grid_intensity (some "US") (some "CA") = Except.error "KeyError: DEFAULT_US"
  ∧ alist_get US_STATE_GRID_INTENSITY "CA" = some 220 := ⟨rfl, by decide⟩

set_option maxRecDepth 8000 in
/-- Claim C7 witness. -/
theorem C7_grid_resolution_witness :
    get_grid_intensity (some "USA") (some "NY") = Except.error "KeyError: DEFAULT_US"
  ∧ get_grid_intensity (some "France") none = Except.ok 50
  ∧ get_grid_intensity (some "Atlantis") none = Except.ok 473 :=
  ⟨C7_grid_resolution_amended.1 (some "USA") "NY" (by decide),
   C7_grid_resolution_amended.2.1 "France" 50 (by decide),
   C7_grid_resolution_amended.2.2.1 "Atlantis" (by decide)⟩

/-- Claim C8 amended. -/
theorem C8_error_policy_amended :
    (∀ rows, app_pipeline none rows = Except.error AppError.missingImpressions)
  ∧ (∀ c rows,
       ((rows.filter (fun r => !is_total_row r)).filter
         (fun r => imps_clean r > 0)).isEmpty = true →
       app_pipeline (some c) rows = Except.error AppError.noValidRows)
  ∧ AppError.missingImpressions ≠ AppError.noValidRows
  ∧ (∀ rows, zci_process none rows = Except.error "No Impressions column found") := by
  refine ⟨fun rows => rfl, fun c rows h => ?_, by decide, fun rows => rfl⟩
  unfold app_pipeline calculate_carbon_gate
  rw [if_pos h]

/-- Claim C8 counterexample. -/
theorem C8_counterexample_zci_no_empty_check :
    zci_process (some "Impressions") [⟨["US", "0"], some 0⟩] = Except.ok 0 := rfl

/-- Claim C8 witness. -/
theorem C8_error_policy_witness :
    app_pipeline none [⟨["FR", "100"], some 100⟩] = Except.error AppError.missingImpressions
  ∧ app_pipeline (some "Impressions") [⟨["Grand Total", "500"], some 500⟩] =
      Except.error AppError.noValidRows :=
  ⟨C8_error_policy_amended.1 _,
   C8_error_policy_amended.2.1 "Impressions" _ (by decide)⟩

/-- Generic fact: association-list lookup misses when no key matches. -/
lemma alist_get_eq_none {α : Type} (l : List (String × α)) (key : String)
    (h : ∀ p ∈ l, p.1 ≠ key) : alist_get l key = none := by
  induction l with
  | nil => rfl
  | cons p rest ih =>
    obtain ⟨k, v⟩ := p
    simp only [alist_get]
    rw [if_neg (h (k, v) (List.mem_cons_self _ _))]
    exact ih fun q hq => h q (List.mem_cons_of_mem _ hq)

/-- A list is a prefix of itself. -/
lemma listLeads_refl (l : List Char) : listLeads l l = true := by
  induction l with
  | nil => rfl
  | cons a as ih => simp [listLeads, ih]

/-- Every string contains itself as a substring. -/
lemma strHasSub_self (s : String) : strHasSub s s = true := by
  unfold strHasSub
  cases h : s.toList with
  | nil => rfl
  | cons c cs => simp [listHasSeg, listLeads_refl]

/-- The exact phase resolves nothing when no term matches any column
case-insensitively. -/
lemma exact_phase_eq_none (terms cols : List String)
    (h : ∀ t ∈ terms, ∀ c ∈ cols, pyLower t ≠ pyLower c) :
    exact_phase terms cols = none := by
  induction terms with
  | nil => rfl
  | cons t ts ih =>
    have hnone : alist_get (lower_key_map cols) (pyLower t) = none := by
      apply alist_get_eq_none
      intro p hp
      simp only [lower_key_map, List.mem_reverse, List.mem_map] at hp
      obtain ⟨c, hc, rfl⟩ := hp
      exact fun he => h t (List.mem_cons_self _ _) c hc he.symm
    simp only [exact_phase, hnone]
    exact ih fun t' ht' c hc => h t' (List.mem_cons_of_mem _ ht') c hc

/-- The partial phase resolves nothing when no term occurs inside any column. -/
lemma partial_phase_eq_none (cols terms : List String)
    (h : ∀ c ∈ cols, ∀ t ∈ terms, strHasSub (pyLower c) (pyLower t) = false) :
    partial_phase cols terms = none := by
  induction cols with
  | nil => rfl
  | cons c cs ih =>
    have hc : (terms.any fun t => strHasSub (pyLower c) (pyLower t)) = false := by
      simp only [List.any_eq_false]
      intro t ht
      simp [h c (List.mem_cons_self _ _) t ht]
    simp only [partial_phase, hc, Bool.false_eq_true, if_false]
    exact ih fun c' hc' => h c' (List.mem_cons_of_mem _ hc')

/-- Claim C4 amended. -/
theorem C4_exact_only_amended :
    (∀ terms cols, (∀ t ∈ terms, ∀ c ∈ cols, pyLower t ≠ pyLower c) →
       detect_role terms cols = none)
  ∧ (∀ terms cols, (∀ c ∈ cols, ∀ t ∈ terms, strHasSub (pyLower c) (pyLower t) = false) →
       find_column_safe terms cols = none) := by
  constructor
  · exact fun terms cols h => exact_phase_eq_none terms cols h
  · intro terms cols h
    have hex : exact_phase terms cols = none := by
      apply exact_phase_eq_none
      intro t ht c hc he
      have hf := h c hc t ht
      rw [he, strHasSub_self] at hf
      exact Bool.true_eq_false.mp hf
    simp only [find_column_safe, hex]
    exact partial_phase_eq_none cols terms h

/-- Claim C4 counterexample. -/
theorem C4_counterexample_substring_match :
    find_column_safe ["Billable Impressions", "Impressions", "Delivered", "Imps"]
      ["Total Impressions"] = some "Total Impressions"
  ∧ exact_phase ["Billable Impressions", "Impressions", "Delivered", "Imps"]
      ["Total Impressions"] = none := ⟨by decide, by decide⟩

/-- Claim C4 witness. -/
theorem C4_exact_only_witness :
    detect_role ["billable impressions", "impressions", "delivered", "imps", "impression"]
      ["Date", "Spend"] = none
  ∧ find_column_safe ["Connection Type", "Network Type", "Connectivity", "Carrier"]
      ["Date", "Spend"] = none :=
  ⟨C4_exact_only_amended.1 _ _ (by decide), C4_exact_only_amended.2 _ _ (by decide)⟩

/-- The size-pattern pass finds nothing when no candidate text contains a
WxH pattern. -/
lemma wxh_pass_eq_none (ts : List String) (h : ∀ t ∈ ts, findWxH t = none) :
    wxh_pass ts = none := by
  induction ts with
  | nil => rfl
  | cons t ts ih =>
    simp only [wxh_pass, h t (List.mem_cons_self _ _)]
    exact ih fun t' ht' => h t' (List.mem_cons_of_mem _ ht')

/-- The strong-keyword pass finds nothing when no candidate text contains a
strong keyword. -/
lemma strong_pass_eq_none (ts : List String)
    (h : ∀ t ∈ ts, strHasSub t "instream" = false ∧ strHasSub t "in-stream" = false
      ∧ strHasSub t "outstream" = false ∧ strHasSub t "video" = false
      ∧ strHasSub t "masthead" = false) :
    strong_pass ts = none := by
  induction ts with
  | nil => rfl
  | cons t ts ih =>
    obtain ⟨h1, h2, h3, h4, h5⟩ := h t (List.mem_cons_self _ _)
    simp only [strong_pass, h1, h2, h3, h4, h5, Bool.or_false, Bool.false_and,
      Bool.false_eq_true, if_false]
    exact ih fun t' ht' => h t' (List.mem_cons_of_mem _ ht')

/-- The generic-keyword pass finds nothing when no candidate text contains a
generic keyword. -/
lemma generic_pass_eq_none (ts : List String)
    (h : ∀ t ∈ ts, strHasSub t "native" = false ∧ strHasSub t "audio" = false
      ∧ strHasSub t "podcast" = false ∧ strHasSub t "dooh" = false
      ∧ strHasSub t "ooh" = false) :
    generic_pass ts = none := by
  induction ts with
  | nil => rfl
  | cons t ts ih =>
    obtain ⟨h1, h2, h3, h4, h5⟩ := h t (List.mem_cons_self _ _)
    simp only [generic_pass, h1, h2, h3, h4, h5, Bool.or_false, Bool.false_eq_true, if_false]
    exact ih fun t' ht' => h t' (List.mem_cons_of_mem _ ht')

/-- Claim C5 amended. -/
theorem C5_precedence_amended :
    (∀ size ctype d, wxh_pass (candidate_texts size ctype) = some d →
       infer_format size ctype = d)
  ∧ (∀ size ctype,
       (∀ t ∈ candidate_texts size ctype, findWxH t = none ∧
          hasAny t ["instream", "in-stream", "outstream", "video", "masthead",
                    "native", "audio", "podcast", "dooh", "ooh"] = false) →
       infer_format size ctype = "Display") := by
  constructor
  · intro size ctype d h
    simp only [infer_format, h]
  · intro size ctype h
    have hw : wxh_pass (candidate_texts size ctype) = none :=
      wxh_pass_eq_none _ fun t ht => (h t ht).1
    have hkw : ∀ t ∈ candidate_texts size ctype,
        strHasSub t "instream" = false ∧ strHasSub t "in-stream" = false
        ∧ strHasSub t "outstream" = false ∧ strHasSub t "video" = false
        ∧ strHasSub t "masthead" = false ∧ strHasSub t "native" = false
        ∧ strHasSub t "audio" = false ∧ strHasSub t "podcast" = false
        ∧ strHasSub t "dooh" = false ∧ strHasSub t "ooh" = false := by
      intro t ht
      have := (h t ht).2
      simp only [hasAny, List.any_cons, List.any_nil, Bool.or_eq_false_iff] at this
      tauto
    have hs : strong_pass (candidate_texts size ctype) = none :=
      strong_pass_eq_none _ fun t ht => by
        obtain ⟨a1, a2, a3, a4, a5, -⟩ := hkw t ht
        exact ⟨a1, a2, a3, a4, a5⟩
    have hg : generic_pass (candidate_texts size ctype) = none :=
      generic_pass_eq_none _ fun t ht => by
        obtain ⟨-, -, -, -, -, b1, b2, b3, b4, b5⟩ := hkw t ht
        exact ⟨b1, b2, b3, b4, b5⟩
    simp only [infer_format, hw, hs, hg]

/-- Claim C5 counterexample. -/
theorem C5_counterexample_zci_format :
    infer_format_zci (some "300x250") none = "Unknown"
  ∧ findWxH "300x250" = some "300x250" := ⟨by decide, by decide⟩

/-- Claim C5 witness. -/
theorem C5_precedence_witness :
    infer_format (some "300x250 Instream") none = "300x250"
  ∧ infer_format (some "gif animation") none = "Display" :=
  ⟨C5_precedence_amended.1 _ _ _ (by decide), C5_precedence_amended.2 _ _ (by decide)⟩

/-- Claim C1 amended. -/
theorem C1_weighted_vs_mean (r1 r2 : CRow) (h1 : 0 < r1.imps) (h2 : 0 < r2.imps)
    (hn : r1.imps ≠ r2.imps) (hr : gCO2PM_row r1 ≠ gCO2PM_row r2) :
    global_gco2pm_app [r1, r2] =
      (total_gCO2 r1 + total_gCO2 r2) / (r1.imps + r2.imps) * 1000
  ∧ global_gco2pm_app [r1, r2] ≠ (gCO2PM_row r1 + gCO2PM_row r2) / 2 := by
  set n1 := r1.imps with hn1
  set n2 := r2.imps with hn2
  set t1 := total_gCO2 r1 with ht1
  set t2 := total_gCO2 r2 with ht2
  have hs : total_imps_app [r1, r2] = n1 + n2 := by
    simp [total_imps_app]
  have hpos : total_imps_app [r1, r2] > 0 := by rw [hs]; linarith
  have hglob : global_gco2pm_app [r1, r2] = (t1 + t2) / (n1 + n2) * 1000 := by
    rw [global_gco2pm_app, if_pos hpos, hs]
    simp [sum_total_gCO2]
  refine ⟨hglob, ?_⟩
  rw [hglob]
  have h1' : n1 ≠ 0 := ne_of_gt h1
  have h2' : n2 ≠ 0 := ne_of_gt h2
  have h12 : n1 + n2 ≠ 0 := by positivity
  have hne : t1 * n2 ≠ t2 * n1 := by
    intro hcross
    apply hr
    show t1 / n1 * 1000 = t2 / n2 * 1000
    rw [div_mul_eq_mul_div, div_mul_eq_mul_div, div_eq_div_iff h1' h2']
    linear_combination 1000 * hcross
  intro heq
  rw [gCO2PM_row, gCO2PM_row, ← ht1, ← ht2, ← hn1, ← hn2] at heq
  have key : (n1 - n2) * (t1 * n2 - t2 * n1) = 0 := by
    field_simp at heq
    linear_combination heq / 1000
  rcases mul_eq_zero.mp key with hk | hk
  · exact hn (by linarith [sub_eq_zero.mp hk])
  · exact hne (by linarith [sub_eq_zero.mp hk])

/-- Claim C1 counterexample. -/
theorem C1_counterexample_zci_mean :
    avg_gco2pm_zci [⟨1, 1000, 1, 1, 0⟩, ⟨1000, 1, 1, 1, 0⟩] ≠
      weighted_gco2pm_zci [⟨1, 1000, 1, 1, 0⟩, ⟨1000, 1, 1, 1, 0⟩] := by
  norm_num [avg_gco2pm_zci, weighted_gco2pm_zci, gCO2PM_zci, totalEmissions_zci,
    networkEmissions_zci, adtechEmissions_zci, dataVolume_MB, sum_totalEmissions_zci,
    total_imps_zci]

/-- Claim C1 witness. -/
theorem C1_weighted_vs_mean_witness :
    global_gco2pm_app [⟨1, 0, 0.025, 0, 1, 100⟩, ⟨1000, 0, 0.025, 0, 1, 1⟩] =
      (total_gCO2 ⟨1, 0, 0.025, 0, 1, 100⟩ + total_gCO2 ⟨1000, 0, 0.025, 0, 1, 1⟩)
        / ((⟨1, 0, 0.025, 0, 1, 100⟩ : CRow).imps + (⟨1000, 0, 0.025, 0, 1, 1⟩ : CRow).imps)
        * 1000
  ∧ global_gco2pm_app [⟨1, 0, 0.025, 0, 1, 100⟩, ⟨1000, 0, 0.025, 0, 1, 1⟩] ≠
      (gCO2PM_row ⟨1, 0, 0.025, 0, 1, 100⟩ + gCO2PM_row ⟨1000, 0, 0.025, 0, 1, 1⟩) / 2 :=
  C1_weighted_vs_mean _ _ (by norm_num) (by norm_num) (by norm_num)
    (by norm_num [gCO2PM_row, total_gCO2, network_gCO2, grid_gCO2, adtech_gCO2])

/-- Bounds for a standard scenario entry: emissions reduced by `r ≥ 0`,
projected over the full impression base. -/
lemma scen_case_std (imps kg g r : ℚ) (hi : 0 < imps) (hkg : 0 ≤ kg)
    (hg : g = kg * 1000000000 / imps) (hr : 0 ≤ r) :
    0 ≤ (if imps > 0 then max 0 (kg - r) * 1000000 / imps else 0)
  ∧ (if imps > 0 then max 0 (kg - r) * 1000000 / imps else 0) ≤ g
  ∧ 0 ≤ (if kg > 0 then (kg - max 0 (kg - r)) / kg * 100 else 0)
  ∧ (if kg > 0 then (kg - max 0 (kg - r)) / kg * 100 else 0) ≤ 100 := by
  have hnk0 : 0 ≤ max 0 (kg - r) := le_max_left _ _
  have hnk1 : max 0 (kg - r) ≤ kg := max_le hkg (by linarith)
  rw [if_pos hi]
  refine ⟨by positivity, ?_, ?_, ?_⟩
  · rw [hg, div_le_div_iff hi hi]
    nlinarith
  · split
    · rename_i h
      have h0 : 0 ≤ kg - max 0 (kg - r) := by linarith
      exact mul_nonneg (div_nonneg h0 h.le) (by norm_num)
    · exact le_refl 0
  · split
    · rename_i h
      rw [div_mul_eq_mul_div, div_le_iff h]
      nlinarith
    · norm_num

/-- Bounds for a capped scenario entry: a fraction `c` of the impressions is
removed both from the emissions (through the projected reduction) and from
the denominator. -/
lemma scen_case_capped (imps kg g c : ℚ) (hi : 0 < imps) (hkg : 0 ≤ kg)
    (hg : g = kg * 1000000000 / imps) (hc0 : 0 ≤ c) (hc1 : c < 1) :
    0 ≤ (if imps - imps * c > 0 then
           max 0 (kg - imps * c * g / 1000 / 1000000) * 1000000 / (imps - imps * c)
         else g)
  ∧ (if imps - imps * c > 0 then
       max 0 (kg - imps * c * g / 1000 / 1000000) * 1000000 / (imps - imps * c)
     else g) ≤ g
  ∧ 0 ≤ (if kg > 0 then (kg - max 0 (kg - imps * c * g / 1000 / 1000000)) / kg * 100 else 0)
  ∧ (if kg > 0 then
       (kg - max 0 (kg - imps * c * g / 1000 / 1000000)) / kg * 100 else 0) ≤ 100 := by
  have hden : imps - imps * c > 0 := by nlinarith
  have hred : imps * c * g / 1000 / 1000000 = c * kg := by
    rw [hg]; field_simp; ring
  have hmax : max 0 (kg - c * kg) = kg - c * kg := max_eq_right (by nlinarith)
  have hval : (kg - c * kg) * 1000000 / (imps - imps * c) = kg * 1000000 / imps := by
    rw [div_eq_div_iff (by positivity) (ne_of_gt hi)]; ring
  rw [if_pos hden, hred, hmax, hval]
  refine ⟨by positivity, ?_, ?_, ?_⟩
  · rw [hg, div_le_div_iff hi hi]
    nlinarith
  · split
    · rename_i h
      have h0 : 0 ≤ kg - (kg - c * kg) := by nlinarith
      exact mul_nonneg (div_nonneg h0 h.le) (by norm_num)
    · exact le_refl 0
  · split
    · rename_i h
      rw [div_mul_eq_mul_div, div_le_iff h]
      nlinarith
    · norm_num

/-- Claim C9 amended. -/
theorem C9_scenarios_amended (imps kg g : ℚ) (hi : 0 < imps) (hkg : 0 ≤ kg)
    (hg : g = kg * 1000000000 / imps) :
    ∀ p ∈ generate_what_if_scenarios imps kg g,
      0 ≤ p.2.1 ∧ p.2.1 ≤ g ∧ 0 ≤ p.2.2 ∧ p.2.2 ≤ 100 := by
  have hgn : 0 ≤ g := by rw [hg]; positivity
  have hC : dict_get NETWORK_FACTORS "Cellular" (0.03 : ℚ) = 0.050 := rfl
  have hW : dict_get NETWORK_FACTORS "WiFi" (0.018 : ℚ) = 0.018 := rfl
  intro p hp
  simp only [generate_what_if_scenarios, hC, hW, List.mem_cons, List.not_mem_nil,
    or_false] at hp
  rcases hp with rfl | rfl | rfl | rfl | rfl | rfl | rfl | rfl | rfl | rfl | rfl | rfl
  · exact scen_case_std imps kg g _ hi hkg hg (by positivity)
  · exact scen_case_std imps kg g _ hi hkg hg (by positivity)
  · exact scen_case_capped imps kg g 0.15 hi hkg hg (by norm_num) (by norm_num)
  · exact scen_case_capped imps kg g 0.08 hi hkg hg (by norm_num) (by norm_num)
  · exact scen_case_std imps kg g _ hi hkg hg (mul_nonneg hkg (by norm_num))
  · refine scen_case_std imps kg g _ hi hkg hg ?_
    have h1 : 0 ≤ imps * 0.5 * 0.08 * g := by nlinarith
    exact div_nonneg (div_nonneg h1 (by norm_num)) (by norm_num)
  · exact scen_case_std imps kg g _ hi hkg hg (mul_nonneg hkg (by norm_num))
  · exact scen_case_std imps kg g _ hi hkg hg (mul_nonneg hkg (by norm_num))
  · refine scen_case_std imps kg g _ hi hkg hg ?_
    have h1 : 0 ≤ imps * 0.25 * 0.05 * g := by nlinarith
    exact div_nonneg (div_nonneg h1 (by norm_num)) (by norm_num)
  · exact scen_case_std imps kg g _ hi hkg hg (mul_nonneg hkg (by norm_num))
  · exact scen_case_std imps kg g _ hi hkg hg (mul_nonneg hkg (by norm_num))
  · exact scen_case_std imps kg g _ hi hkg hg (mul_nonneg hkg (by norm_num))

/-- Claim C9 counterexample. -/
theorem C9_counterexample_zci_combined :
    ("All Combined", (-35 : ℚ), (135 : ℚ)) ∈
      compute_whatif_scenarios 100 100 100 0 100 100 100 true false true true true
  ∧ ((-35 : ℚ) < 0 ∧ (100 : ℚ) < 135) := by
  constructor
  · have : compute_whatif_scenarios 100 100 100 0 100 100 100 true false true true true =
        [("100% Wi-Fi Adoption", 70, 30), ("Frequency Cap 3/user/day", 85, 15),
         ("Video Bitrate 720p", 70, 30), ("Green Grid Focus", 50, 50),
         ("MFA Exclusion", 75, 25), ("30% DOOH Migration", 75, 25),
         ("Native Format Priority", 80, 20), ("Off-Peak Scheduling", 90, 10),
         ("CTV Reduction (-50%)", 88, 12), ("Contextual Targeting", 92, 8),
         ("All Combined", -35, 135)] := by
      simp only [compute_whatif_scenarios]
      norm_num
    rw [this]
    simp
  · norm_num

/-- Claim C9 witness. -/
theorem C9_scenarios_witness :
    0 ≤ (("Green Hours Only (22-06)", (0 : ℚ), (0 : ℚ)).2.1)
  ∧ (("Green Hours Only (22-06)", (0 : ℚ), (0 : ℚ)).2.1) ≤ 0
  ∧ 0 ≤ (("Green Hours Only (22-06)", (0 : ℚ), (0 : ℚ)).2.2)
  ∧ (("Green Hours Only (22-06)", (0 : ℚ), (0 : ℚ)).2.2) ≤ 100 :=
  C9_scenarios_amended 1000 0 0 (by norm_num) (by norm_num) (by norm_num)
    ("Green Hours Only (22-06)", 0, 0) (by
      have hC : dict_get NETWORK_FACTORS "Cellular" (0.03 : ℚ) = 0.050 := rfl
      have hW : dict_get NETWORK_FACTORS "WiFi" (0.018 : ℚ) = 0.018 := rfl
      simp only [generate_what_if_scenarios, hC, hW, List.mem_cons]
      norm_num)
